import Mathlib

/-
  Verification development for the algosh front end.

  Embedded source files:
    - src/parser/expr/transform.rs  (Transform node: try_from, try_reduce)
    - algo/src/lib.rs               (Error, ErrorKind, Operator and classifications)
    - algo/src/types.rs             (Type)

  The Parser Core primitives (peek/advance/expect/expect_with), the lexer's
  TokenKind, ParserError and TypeKind are used by transform.rs but their
  definitions are not in the visible source; they are modelled from the
  specification (spec.md sections 3, 4.3, 4.6) and are marked as such below.
-/

namespace Algosh

/-- Symbol: opaque interned small-integer handle (intaglio::Symbol); modelled as Nat. -/
abbrev Symbol := Nat

/-- Span: half-open byte-offset range `logos::Span = Range<usize>`; modelled as a pair. -/
abbrev Span := Nat × Nat

/-- Modelled from the spec: the lexer's closed token-kind enumeration (spec section 3).
Only the kinds inspected by the visible source are distinguished:
`ParameterBrace` (both opening and closing parameter brace), `Assign` (the
colon-style separator), `Separator` (the parameter separator), `Identifier`
(carrying its interned Symbol), the primitive type-name keywords, and the two
delimiter kinds named in `algo/src/lib.rs` (`ArrayOpen`, `GroupOpen`); all
remaining kinds are abstracted as `other`. -/
inductive TokenKind where
  | ParameterBrace
  | Assign
  | Separator
  | Identifier (sym : Symbol)
  | TypeInt
  | TypeUInt
  | TypeBool
  | TypeUnit
  | ArrayOpen
  | GroupOpen
  | other (n : Nat)
deriving DecidableEq

/-- Token: a token kind together with its span (spec section 3). -/
structure Token where
  kind : TokenKind
  span : Span
deriving DecidableEq

/-- Modelled from the spec: the parser-side type vocabulary `TypeKind`
(imported by transform.rs from `parser::expr`, definition not in the visible
source). Per spec section 4.6 it covers the primitive type names and checked
(nominal) type references. -/
inductive TypeKind where
  | unit
  | int
  | uint
  | bool
  | checked (sym : Symbol)
deriving DecidableEq

/-- Modelled from the spec: conversion from a token kind to a `TypeKind`
(spec sections 4.6 and 6): total over the subset of tokens that denote
primitive or checked type names, failing otherwise. -/
def TypeKind.tryFrom : TokenKind → Except Unit TypeKind
  | TokenKind.TypeUnit => Except.ok TypeKind.unit
  | TokenKind.TypeInt => Except.ok TypeKind.int
  | TokenKind.TypeUInt => Except.ok TypeKind.uint
  | TokenKind.TypeBool => Except.ok TypeKind.bool
  | TokenKind.Identifier s => Except.ok (TypeKind.checked s)
  | _ => Except.error ()

/-- Modelled from the spec: `ParserError` (imported by transform.rs from
`parser::expr`, definition not in the visible source). The variants are those
used by transform.rs — `FoundMsg { found, msg }` and `ReplaceThisError` — plus
the lookahead-mismatch error raised by `expect` per spec section 4.3
(`Unexpected{expected, found: peek()}`). -/
inductive ParserError where
  | Unexpected (expected : List TokenKind) (found : Option Token)
  | FoundMsg (found : Option Token) (msg : String)
  | ReplaceThisError
deriving DecidableEq

/-- Modelled from the spec (section 4.3): `peek()` views the current token
without consuming; `None` at end of stream. The parser state is the remaining
token list. -/
def peek (ts : List Token) : Option Token :=
  ts.head?

/-- Modelled from the spec (section 4.3): `advance()` consumes the current token. -/
def advance (ts : List Token) : List Token :=
  ts.tail

/-- Modelled from the spec (section 4.3): `expect(kind)` consumes the current
token iff its kind matches `kind`; otherwise fails with
`Unexpected{expected: [kind], found: peek()}` without consuming. -/
def expect (ts : List Token) (kind : TokenKind) : Except ParserError (List Token) :=
  match ts with
  | t :: rest =>
    if t.kind = kind then Except.ok rest
    else Except.error (ParserError.Unexpected [kind] (some t))
  | [] => Except.error (ParserError.Unexpected [kind] none)

/-- Modelled from the spec (section 4.3): `expect_with(predicate)` consumes and
transforms the current token through a caller-supplied fallible projection; on
projection failure the caller's own error is returned untouched and the cursor
is not advanced. -/
def expect_with {α : Type} (ts : List Token)
    (f : Token → Except ParserError α) : Except ParserError (α × List Token) :=
  match ts with
  | t :: rest =>
    match f t with
    | Except.ok a => Except.ok (a, rest)
    | Except.error e => Except.error e
  | [] => Except.error (ParserError.Unexpected [] none)

/-- HeapExpr: an owning pointer to a node implementing the Expression
capability (`Box<dyn Expression>`). Only the Transform node kind
(`struct Transform { parameters, next_expr }`, transform.rs lines 9-12) is in
the visible source; per the spec (sections 2 and 9) other node kinds exist in
the grammar and are abstracted here as `otherNode`. -/
inductive HeapExpr where
  | transform (parameters : List (Symbol × TypeKind)) (next_expr : HeapExpr)
  | otherNode (tag : Nat)
deriving DecidableEq

/-- Message of the identifier-expected diagnostic, transform.rs line 34. -/
def identHintMsg : String :=
  "expected identifier (hint: parameter format is `name: Int`)"

/-- Message of the type-expected diagnostic, transform.rs line 44. -/
def typeHintMsg : String :=
  "expected type (hint: parameter format is `name: Type`)"

/-- The projection passed to `expect_with` in transform.rs lines 41-46:
`TypeKind::try_from(t.kind()).map_err(|_| ParserError::FoundMsg { found: Some(t), msg })`. -/
def parseTypeArg (t : Token) : Except ParserError TypeKind :=
  match TypeKind.tryFrom t.kind with
  | Except.ok ty => Except.ok ty
  | Except.error _ => Except.error (ParserError.FoundMsg (some t) typeHintMsg)

/-- Outcome of the inspection following a parsed `(name, type)` pair,
transform.rs lines 49-61. -/
inductive LoopNext where
  | breakLoop (rest : List Token)
  | continueLoop (rest : List Token)
  | fail (e : ParserError)
deriving DecidableEq

/-- The `match parser.peek().map(Token::kind)` at transform.rs lines 49-61:
a closing `ParameterBrace` is consumed (`advance`) and breaks the loop, a
`Separator` is consumed and continues the loop, and any other token (or end of
input) is `ParserError::ReplaceThisError`. -/
def afterParameter (ts : List Token) : LoopNext :=
  match (peek ts).map Token.kind with
  | some TokenKind.ParameterBrace => LoopNext.breakLoop (advance ts)
  | some TokenKind.Separator => LoopNext.continueLoop (advance ts)
  | _ => LoopNext.fail ParserError.ReplaceThisError

/-- The parameter loop of `Transform::try_from`, transform.rs lines 28-62.
Per iteration: peek must be an `Identifier` (transform.rs lines 30-36; note the
source only peeks, it does not consume the identifier), then
`expect(Assign)` (line 38), then `expect_with` with the type projection
(lines 41-46), pushing the `(name, type)` pair, then the `afterParameter`
inspection. The Rust `loop` is modelled with an explicit fuel parameter; fuel
never runs out when it exceeds the token count, since every continuation of
the loop consumes tokens. -/
def paramLoopFuel : Nat → List (Symbol × TypeKind) → List Token →
    Except ParserError (List (Symbol × TypeKind) × List Token)
  | 0, _, _ => Except.error ParserError.ReplaceThisError
  | Nat.succ n, parameters, ts =>
    match (peek ts).map Token.kind with
    | some (TokenKind.Identifier name) =>
      match expect ts TokenKind.Assign with
      | Except.error e => Except.error e
      | Except.ok ts₁ =>
        match expect_with ts₁ parseTypeArg with
        | Except.error e => Except.error e
        | Except.ok (ty, ts₂) =>
          match afterParameter ts₂ with
          | LoopNext.breakLoop ts₃ => Except.ok (parameters ++ [(name, ty)], ts₃)
          | LoopNext.continueLoop ts₃ => paramLoopFuel n (parameters ++ [(name, ty)]) ts₃
          | LoopNext.fail e => Except.error e
    | _ => Except.error (ParserError.FoundMsg (peek ts) identHintMsg)

/-- `Transform::try_from`, transform.rs lines 25-68, with fuel: expect an
opening `ParameterBrace` (line 26), run the parameter loop (lines 28-62), then
recursively parse the body by the same rule and box it (lines 64-67), returning
the node together with the remaining token stream. -/
def tryFromFuel : Nat → List Token → Except ParserError (HeapExpr × List Token)
  | 0, _ => Except.error ParserError.ReplaceThisError
  | Nat.succ n, ts =>
    match expect ts TokenKind.ParameterBrace with
    | Except.error e => Except.error e
    | Except.ok ts₁ =>
      match paramLoopFuel (Nat.succ n) [] ts₁ with
      | Except.error e => Except.error e
      | Except.ok (parameters, ts₂) =>
        match tryFromFuel n ts₂ with
        | Except.error e => Except.error e
        | Except.ok (body, ts₃) => Except.ok (HeapExpr.transform parameters body, ts₃)

/-- `Transform::try_from` on a token stream: the fuel bound `length + 1`
dominates every possible recursion depth (each recursive step strictly
consumes tokens), so the fuel-exhaustion branch is never the result. -/
def Transform.try_from (ts : List Token) : Except ParserError (HeapExpr × List Token) :=
  tryFromFuel (ts.length + 1) ts

/-- Outcome of a reduction step; `todo!()` in the source panics, modelled as
the `panicked` outcome, distinct from any completed `Result`. -/
inductive ReduceOutcome where
  | panicked (msg : String)
  | completed (r : Except ParserError Unit)

/-- Panic message of Rust's `todo!()` macro. -/
def todoMsg : String := "not yet implemented"

/-- `Transform::try_reduce`, transform.rs lines 17-19: the body is `todo!()`,
an unconditional panic, for every Transform node (any field values). -/
def Transform.try_reduce (parameters : List (Symbol × TypeKind))
    (next_expr : HeapExpr) : ReduceOutcome :=
  ReduceOutcome.panicked todoMsg

/-- ErrorKind, algo/src/lib.rs lines 36-57: the closed set of diagnostic kinds. -/
inductive ErrorKind where
  | General (msg : String)
  | Unexpected (expected : List TokenKind) (found : Option TokenKind)
  | UnclosedDelimiter (delimiter : TokenKind) (delimiter_span : Span)
      (expected : TokenKind) (found : Option TokenKind)
  | UndeclaredVar (var_name : String)
  | NoTle
deriving DecidableEq

/-- Error, algo/src/lib.rs lines 59-64: span + boxed kind + optional static
label (the Box indirection is erased; the `&'static str` label is a String). -/
structure Error where
  span : Span
  kind : ErrorKind
  label : Option String
deriving DecidableEq

/-- `Error::with_label`, algo/src/lib.rs lines 245-251: rebuilds the error with
the same span and kind and the given label. -/
def Error.with_label (e : Error) (label : String) : Error :=
  { span := e.span, kind := e.kind, label := some label }

/-- `Error::merge`, algo/src/lib.rs lines 253-256: returns `self`, ignoring the
other error (the FIXME no-op merge). -/
def Error.merge (e : Error) (other : Error) : Error :=
  e

/-- Operator, algo/src/lib.rs lines 259-290: the closed binary-operator
enumeration, in source order. -/
inductive Operator where
  | Exp
  | Add
  | Sub
  | Mul
  | Div
  | Rem
  | Shr
  | Shl
  | BitXor
  | BitAnd
  | BitOr
  | Eq
  | NotEq
  | Greater
  | GreaterEq
  | Less
  | LessEq
  | Or
  | Xor
  | And
  | Clow
  | Cerm
  | Assign
deriving DecidableEq

/-- `Operator::is_arithmetic`, algo/src/lib.rs lines 293-309. -/
def Operator.is_arithmetic : Operator → Bool
  | Operator.Exp | Operator.Add | Operator.Sub | Operator.Mul | Operator.Div
  | Operator.Rem | Operator.Shr | Operator.Shl
  | Operator.BitXor | Operator.BitAnd | Operator.BitOr => true
  | _ => false

/-- `Operator::is_boolean`, algo/src/lib.rs lines 311-317. -/
def Operator.is_boolean : Operator → Bool
  | Operator.Eq | Operator.NotEq | Operator.Greater | Operator.GreaterEq
  | Operator.Less | Operator.LessEq => true
  | _ => false

/-- `Operator::is_logical`, algo/src/lib.rs lines 319-333. -/
def Operator.is_logical : Operator → Bool
  | Operator.Eq | Operator.NotEq | Operator.Greater | Operator.GreaterEq
  | Operator.Less | Operator.LessEq
  | Operator.Or | Operator.Xor | Operator.And => true
  | _ => false

/-- Type, algo/src/types.rs lines 4-17: the recursive algebraic type
representation, with derived (structural) equality. Named `Type'` because
`Type` is reserved in Lean. -/
inductive Type' where
  | Unit
  | Int
  | UInt
  | Bool
  | Tuple (fields : List (Option Symbol × Type'))
  | Array (ty : Type') (len : Option Nat)
  | Expression (input : Type') (output : Type')
  | Checked (sym : Symbol)

/-- Whether an `Except` result is a success. -/
def resultIsOk {ε α : Type} : Except ε α → Bool
  | Except.ok _ => true
  | Except.error _ => false

/-- Whether a `Transform::try_from` result is a success carrying a Transform
node with an empty parameter list. -/
def emptyParamsSuccess (r : Except ParserError (HeapExpr × List Token)) : Bool :=
  match r with
  | Except.ok (HeapExpr.transform [] _, _) => true
  | _ => false

/-- Whether a reduction outcome is a completed (non-panicking) return. -/
def completedOutcome : ReduceOutcome → Bool
  | ReduceOutcome.completed _ => true
  | ReduceOutcome.panicked _ => false

/-- The parameter loop never succeeds: its first iteration already fails.
When the head token is an identifier the loop does not consume it (the source
only peeks), so the immediately following `expect Assign` inspects that same
identifier token and fails; when the head token is anything else the loop
fails with the identifier-expected diagnostic. -/
lemma paramLoopFuel_isOk_false (n : Nat) (acc : List (Symbol × TypeKind))
    (ts : List Token) : resultIsOk (paramLoopFuel n acc ts) = false := by
  cases n with
  | zero => rfl
  | succ n =>
    cases ts with
    | nil => rfl
    | cons t rest =>
      rcases t with ⟨k, sp⟩
      cases k <;> rfl

/-- `tryFromFuel` never succeeds, for any fuel: the parameter loop always fails. -/
lemma tryFromFuel_isOk_false (n : Nat) (ts : List Token) :
    resultIsOk (tryFromFuel n ts) = false := by
  cases n with
  | zero => rfl
  | succ n =>
    show resultIsOk
      (match expect ts TokenKind.ParameterBrace with
        | Except.error e => Except.error e
        | Except.ok ts₁ =>
          match paramLoopFuel (Nat.succ n) [] ts₁ with
          | Except.error e => Except.error e
          | Except.ok (parameters, ts₂) =>
            match tryFromFuel n ts₂ with
            | Except.error e => Except.error e
            | Except.ok (body, ts₃) =>
              Except.ok (HeapExpr.transform parameters body, ts₃)) = false
    cases hE : expect ts TokenKind.ParameterBrace with
    | error e => rfl
    | ok ts₁ =>
      show resultIsOk
        (match paramLoopFuel (Nat.succ n) [] ts₁ with
          | Except.error e => Except.error e
          | Except.ok (parameters, ts₂) =>
            match tryFromFuel n ts₂ with
            | Except.error e => Except.error e
            | Except.ok (body, ts₃) =>
              Except.ok (HeapExpr.transform parameters body, ts₃)) = false
      have h := paramLoopFuel_isOk_false (Nat.succ n) [] ts₁
      cases hP : paramLoopFuel (Nat.succ n) [] ts₁ with
      | error e => rfl
      | ok pr => rw [hP] at h; simp [resultIsOk] at h

/-- `Transform::try_from` never succeeds on any token stream. -/
lemma tryFrom_isOk_false (ts : List Token) :
    resultIsOk (Transform.try_from ts) = false :=
  tryFromFuel_isOk_false (ts.length + 1) ts

/-- The token stream the lexer produces for `"{x: Int} {y: Int}"` (spans are
the byte offsets into that string; `x` is Symbol 0, `y` is Symbol 1). -/
def curriedExampleTokens : List Token :=
  [⟨TokenKind.ParameterBrace, (0, 1)⟩, ⟨TokenKind.Identifier 0, (1, 2)⟩,
   ⟨TokenKind.Assign, (2, 3)⟩, ⟨TokenKind.TypeInt, (4, 7)⟩,
   ⟨TokenKind.ParameterBrace, (7, 8)⟩, ⟨TokenKind.ParameterBrace, (9, 10)⟩,
   ⟨TokenKind.Identifier 1, (10, 11)⟩, ⟨TokenKind.Assign, (11, 12)⟩,
   ⟨TokenKind.TypeInt, (13, 16)⟩, ⟨TokenKind.ParameterBrace, (16, 17)⟩]

/-- Claim C1: the claim states that parsing the token stream of
`"{x: Int} {y: Int}"` as a Transform succeeds and yields a node with
parameters `[(x, Int)]` whose body is a Transform with parameters
`[(y, Int)]`. The code diverges: `Transform::try_from` only peeks the
identifier token and never consumes it, so the following `expect(Assign)`
inspects the identifier itself and fails with `Unexpected{expected: [Assign],
found: the identifier token}`; the construction therefore fails on this input
(and the body recursion at transform.rs lines 64-67 is never reached with a
successful parameter list). -/
theorem transform_curried_example_fails :
    Transform.try_from curriedExampleTokens =
      Except.error (ParserError.Unexpected [TokenKind.Assign]
        (some ⟨TokenKind.Identifier 0, (1, 2)⟩)) := rfl

/-- Claim C2 (counterexample): an input whose parameter braces enclose no
`(identifier ':' type)` pairs — here `"{} {x: Int}"` — is not accepted: the
loop demands an identifier first and construction fails with the hinted
identifier-expected diagnostic at the closing brace, yielding no node at all. -/
theorem transform_empty_params_concrete_rejection :
    Transform.try_from
        [⟨TokenKind.ParameterBrace, (0, 1)⟩, ⟨TokenKind.ParameterBrace, (1, 2)⟩,
         ⟨TokenKind.ParameterBrace, (3, 4)⟩, ⟨TokenKind.Identifier 0, (4, 5)⟩,
         ⟨TokenKind.Assign, (5, 6)⟩, ⟨TokenKind.TypeInt, (7, 10)⟩,
         ⟨TokenKind.ParameterBrace, (10, 11)⟩] =
      Except.error (ParserError.FoundMsg
        (some ⟨TokenKind.ParameterBrace, (1, 2)⟩) identHintMsg) := rfl

/-- Claim C2 (amended): the parameter list between the braces is not optional.
For every continuation of the stream (any would-be body), an input whose
parameter braces enclose no `(identifier ':' type)` pairs is rejected by
Transform construction with the hinted identifier-expected diagnostic at the
closing parameter brace; no node with an empty parameter list is produced. -/
theorem transform_empty_params_always_rejected (sp₀ sp₁ : Span)
    (rest : List Token) :
    Transform.try_from
        (⟨TokenKind.ParameterBrace, sp₀⟩ :: ⟨TokenKind.ParameterBrace, sp₁⟩ :: rest) =
      Except.error (ParserError.FoundMsg
        (some ⟨TokenKind.ParameterBrace, sp₁⟩) identHintMsg) := rfl

/-- Witness for the amended Claim C2 at the concrete two-token input `"{}"`. -/
theorem transform_empty_params_always_rejected_witness :
    Transform.try_from
        [⟨TokenKind.ParameterBrace, (0, 1)⟩, ⟨TokenKind.ParameterBrace, (1, 2)⟩] =
      Except.error (ParserError.FoundMsg
        (some ⟨TokenKind.ParameterBrace, (1, 2)⟩) identHintMsg) :=
  transform_empty_params_always_rejected (0, 1) (1, 2) []

/-- Claim C3: over the whole Operator enumeration, `is_arithmetic` holds
exactly on `{Exp, Add, Sub, Mul, Div, Rem, Shr, Shl, BitXor, BitAnd, BitOr}`,
`is_boolean` exactly on the comparisons `{Eq, NotEq, Greater, GreaterEq, Less,
LessEq}`, `is_logical` exactly on those comparisons together with
`{Or, Xor, And}`, and every operator satisfying `is_boolean` also satisfies
`is_logical`. Totality is inherent: all three are total functions on the
enumeration. -/
theorem operator_classification (op : Operator) :
    (op.is_arithmetic = true ↔
      (op = Operator.Exp ∨ op = Operator.Add ∨ op = Operator.Sub ∨
       op = Operator.Mul ∨ op = Operator.Div ∨ op = Operator.Rem ∨
       op = Operator.Shr ∨ op = Operator.Shl ∨ op = Operator.BitXor ∨
       op = Operator.BitAnd ∨ op = Operator.BitOr)) ∧
    (op.is_boolean = true ↔
      (op = Operator.Eq ∨ op = Operator.NotEq ∨ op = Operator.Greater ∨
       op = Operator.GreaterEq ∨ op = Operator.Less ∨ op = Operator.LessEq)) ∧
    (op.is_logical = true ↔
      (op = Operator.Eq ∨ op = Operator.NotEq ∨ op = Operator.Greater ∨
       op = Operator.GreaterEq ∨ op = Operator.Less ∨ op = Operator.LessEq ∨
       op = Operator.Or ∨ op = Operator.Xor ∨ op = Operator.And)) ∧
    (op.is_boolean = true → op.is_logical = true) := by
  cases op <;> decide

/-- Witness for Claim C3: the comparison operator `Eq` is boolean, hence
logical, by the classification theorem at the concrete operator. -/
theorem operator_classification_witness :
    Operator.is_logical Operator.Eq = true :=
  (operator_classification Operator.Eq).2.2.2 rfl

/-- Claim C4: the inspection that follows each parsed `(name, type)` pair
(transform.rs lines 49-61, embedded as `afterParameter` and invoked by the
parameter loop right after the pair is pushed) has exactly three cases: a
closing parameter brace is consumed and breaks the loop, a separator token is
consumed and continues the loop, and any other token — including end of
input — fails with the placeholder error `ReplaceThisError`, never succeeding
or looping. -/
theorem afterParameter_trichotomy (ts : List Token) :
    ((peek ts).map Token.kind = some TokenKind.ParameterBrace ∧
      afterParameter ts = LoopNext.breakLoop (advance ts)) ∨
    ((peek ts).map Token.kind = some TokenKind.Separator ∧
      afterParameter ts = LoopNext.continueLoop (advance ts)) ∨
    (¬ (peek ts).map Token.kind = some TokenKind.ParameterBrace ∧
      ¬ (peek ts).map Token.kind = some TokenKind.Separator ∧
      afterParameter ts = LoopNext.fail ParserError.ReplaceThisError) := by
  rcases ts with _ | ⟨⟨k, sp⟩, rest⟩
  · exact Or.inr (Or.inr ⟨by simp [peek], by simp [peek], rfl⟩)
  · cases k
    case ParameterBrace => exact Or.inl ⟨rfl, rfl⟩
    case Separator => exact Or.inr (Or.inl ⟨rfl, rfl⟩)
    all_goals
      exact Or.inr (Or.inr ⟨by simp [peek], by simp [peek], rfl⟩)

/-- Witness for Claim C4 at a concrete stream headed by a separator token: the
trichotomy's middle case applies, the separator is consumed and the loop
continues. -/
theorem afterParameter_trichotomy_witness :
    afterParameter [⟨TokenKind.Separator, (0, 1)⟩] = LoopNext.continueLoop [] := by
  rcases afterParameter_trichotomy [⟨TokenKind.Separator, (0, 1)⟩] with
    ⟨h, _⟩ | ⟨_, h⟩ | ⟨_, h, _⟩
  · exact absurd h (by decide)
  · exact h
  · exact absurd rfl h

/-- Claim C5: the claim states that a non-identifier at the start of a
parameter binding fails with the hinted `FoundMsg` diagnostic (true — first
conjunct, at the input `"{Int"`), and that a token after the separator that
does not convert to a type also fails with a hinted `FoundMsg` (false): at the
input `"{x: ,}"`, whose token after the colon is a `Separator` and does not
convert to a type (second conjunct), construction instead fails earlier with
the generic `Unexpected{expected: [Assign]}` at the never-consumed identifier
token (third conjunct): the hinted type diagnostic is unreachable. -/
theorem transform_param_error_messages :
    Transform.try_from
        [⟨TokenKind.ParameterBrace, (0, 1)⟩, ⟨TokenKind.TypeInt, (1, 4)⟩] =
      Except.error (ParserError.FoundMsg
        (some ⟨TokenKind.TypeInt, (1, 4)⟩) identHintMsg) ∧
    TypeKind.tryFrom TokenKind.Separator = Except.error () ∧
    Transform.try_from
        [⟨TokenKind.ParameterBrace, (0, 1)⟩, ⟨TokenKind.Identifier 0, (1, 2)⟩,
         ⟨TokenKind.Assign, (2, 3)⟩, ⟨TokenKind.Separator, (4, 5)⟩,
         ⟨TokenKind.ParameterBrace, (5, 6)⟩] =
      Except.error (ParserError.Unexpected [TokenKind.Assign]
        (some ⟨TokenKind.Identifier 0, (1, 2)⟩)) :=
  ⟨rfl, rfl, rfl⟩

/-- Claim C6: for every Transform node (any parameter list and body),
`try_reduce` is the `todo!()` panic: it never completes — neither with a
successful `Ok(())` nor as a silent no-op nor with an error return — but fails
fast as explicitly unimplemented. -/
theorem transform_try_reduce_unimplemented (parameters : List (Symbol × TypeKind))
    (next_expr : HeapExpr) :
    Transform.try_reduce parameters next_expr = ReduceOutcome.panicked todoMsg ∧
    completedOutcome (Transform.try_reduce parameters next_expr) = false :=
  ⟨rfl, rfl⟩

/-- Witness for Claim C6 at a concrete node with one parameter. -/
theorem transform_try_reduce_unimplemented_witness :
    Transform.try_reduce [(0, TypeKind.int)] (HeapExpr.otherNode 0) =
      ReduceOutcome.panicked todoMsg :=
  (transform_try_reduce_unimplemented [(0, TypeKind.int)] (HeapExpr.otherNode 0)).1

/-- Claim C7: for every pair of Error values, `merge` returns the first error
verbatim — same span, same kind, same label, and indeed the very same value —
so error merging across alternative parse attempts keeps the first error. -/
theorem error_merge_keeps_first (e₁ e₂ : Error) :
    (e₁.merge e₂).span = e₁.span ∧
    (e₁.merge e₂).kind = e₁.kind ∧
    (e₁.merge e₂).label = e₁.label ∧
    e₁.merge e₂ = e₁ :=
  ⟨rfl, rfl, rfl, rfl⟩

/-- Witness for Claim C7 at two concrete distinct errors. -/
theorem error_merge_keeps_first_witness :
    Error.merge ⟨(0, 1), ErrorKind.NoTle, none⟩
        ⟨(2, 3), ErrorKind.UndeclaredVar "x", some "transform"⟩ =
      ⟨(0, 1), ErrorKind.NoTle, none⟩ :=
  (error_merge_keeps_first ⟨(0, 1), ErrorKind.NoTle, none⟩
    ⟨(2, 3), ErrorKind.UndeclaredVar "x", some "transform"⟩).2.2.2

/-- Claim C8: for every Error and every label, `with_label` preserves the span
and the kind and changes only the label field, setting it to the given label. -/
theorem error_with_label_frame (e : Error) (l : String) :
    (e.with_label l).span = e.span ∧
    (e.with_label l).kind = e.kind ∧
    (e.with_label l).label = some l :=
  ⟨rfl, rfl, rfl⟩

/-- Witness for Claim C8 at a concrete error and label. -/
theorem error_with_label_frame_witness :
    (Error.with_label ⟨(0, 1), ErrorKind.NoTle, none⟩ "transform").label =
      some "transform" :=
  (error_with_label_frame ⟨(0, 1), ErrorKind.NoTle, none⟩ "transform").2.2

/-- Claim C9: Type equality is structural — two `Tuple`, `Array`, or
`Expression` values are equal iff their components are equal; two `Tuple`
values with identically-ordered, identically-named, identically-typed fields
are equal; and reordering the (named, typed) fields of a Tuple produces an
unequal value, so field order is part of the representation. -/
theorem type_structural_equality :
    (∀ fs gs : List (Option Symbol × Type'),
      (Type'.Tuple fs = Type'.Tuple gs) ↔ fs = gs) ∧
    (∀ (t₁ t₂ : Type') (l₁ l₂ : Option Nat),
      (Type'.Array t₁ l₁ = Type'.Array t₂ l₂) ↔ t₁ = t₂ ∧ l₁ = l₂) ∧
    (∀ i₁ o₁ i₂ o₂ : Type',
      (Type'.Expression i₁ o₁ = Type'.Expression i₂ o₂) ↔ i₁ = i₂ ∧ o₁ = o₂) ∧
    (Type'.Tuple [(some 0, Type'.Int), (some 1, Type'.Bool)] =
      Type'.Tuple [(some 0, Type'.Int), (some 1, Type'.Bool)]) ∧
    ((Type'.Tuple [(some 0, Type'.Int), (some 1, Type'.Bool)] =
      Type'.Tuple [(some 1, Type'.Bool), (some 0, Type'.Int)]) = False) := by
  refine ⟨fun fs gs => ?_, fun t₁ t₂ l₁ l₂ => ?_, fun i₁ o₁ i₂ o₂ => ?_, rfl, ?_⟩
  · exact ⟨fun h => by injection h, fun h => by rw [h]⟩
  · exact ⟨fun h => by injection h with h₁ h₂; exact ⟨h₁, h₂⟩,
      fun h => by rw [h.1, h.2]⟩
  · exact ⟨fun h => by injection h with h₁ h₂; exact ⟨h₁, h₂⟩,
      fun h => by rw [h.1, h.2]⟩
  · simp

/-- Witness for Claim C9: the Tuple component of the theorem applied at
concrete equal field lists. -/
theorem type_structural_equality_witness :
    Type'.Tuple [(some 0, Type'.Int)] = Type'.Tuple [(some 0, Type'.Int)] :=
  (type_structural_equality.1 [(some 0, Type'.Int)] [(some 0, Type'.Int)]).mpr rfl

/-- Claim C10: no successfully built Transform has an empty parameter list:
for every token stream, `Transform::try_from` never returns a success whose
node carries zero parameters. The loop indeed demands an identifier before a
closing brace can be consumed; in this revision the invariant holds a
fortiori, because construction never succeeds at all (see the never-consumed
identifier of Claim C1). -/
theorem transform_no_empty_params (ts : List Token) :
    emptyParamsSuccess (Transform.try_from ts) = false := by
  have h := tryFrom_isOk_false ts
  cases hR : Transform.try_from ts with
  | ok pr => rw [hR] at h; simp [resultIsOk] at h
  | error e => rfl

/-- Witness for Claim C10 at the empty token stream. -/
theorem transform_no_empty_params_witness :
    emptyParamsSuccess (Transform.try_from []) = false :=
  transform_no_empty_params []

end Algosh
